import Mathlib

/-!
Shallow embedding of the pyslo SLI engine (`pyslo/sli.py`) and the label
namespacing helper of the Stackdriver metric client
(`pyslo/metric_client/stackdriver/stackdriver_metric_client.py`).

Modelling conventions:
* A pandas dataframe of observations is a `List Observation`; each record
  carries the point's start/end timestamps (seconds since the epoch), its
  integer `value` (0/1 for boolean metrics) and its label columns, modelled
  as a valuation `String → Option String` of column name to label value,
  where `none` is a NaN cell (the row's source time series did not carry
  that label). Pandas `groupby` silently excludes every row holding NA in
  a grouped key column; `calc_bool_agg` reproduces that exclusion. The
  dataframe-schema-level `KeyError` pandas raises when a grouped column is
  absent from the dataframe altogether is outside this row-list model,
  which has no column schema separate from the rows: a column carried by
  no row appears here as the all-`none` case, whose rows are all excluded.
* Python floats (`time.time()`, the SLO fraction, ratios) are modelled as
  exact rationals `ℚ`; the float NaN produced by a 0/0 division is modelled
  as `none : Option ℚ`.
* Python exceptions become `Except SliError`; raising before any mutation
  leaves the caller's state untouched, which the functional embedding
  renders by returning only the error, never a changed state.
* `monitoring_v3.enums.MetricDescriptor.ValueType` together with the
  literal string `'Some other type'` tested in `Sli.calculate` is the
  inductive `ValueType`; `NONE` stands for Python `None`, the default
  `MetricClient.value_type`.
-/

/-- Observation record: one row of the `metric_data` dataframe, as built by
`StackdriverMetricClient.point_dict` (value plus start/end timestamps plus
namespaced label columns). `pd.DataFrame(points)` fills a label column
absent from a given point's dict with NaN, so a label cell is
`Option String`, `none` being such a NaN cell. -/
structure Observation where
  start_timestamp : ℚ
  end_timestamp : ℚ
  value : ℤ
  labels : String → Option String

/-- Metric value type discriminator used by `Sli.calculate`: the Stackdriver
`ValueType` enum members together with the placeholder string
`'Some other type'` and Python `None`. -/
inductive ValueType where
  | BOOL
  | someOtherType
  | NONE
  | INT64
  | DOUBLE
  | STRING
  | DISTRIBUTION
deriving DecidableEq

/-- Exceptions surfaced by the `Sli` methods: the two members of
`SliException` plus the `TypeError` Python would raise when `error_budget`
touches a `slo_data` that is still `None`. -/
inductive SliError where
  | ValueNotSet
  | UnsupportedMetricType
  | NoneTypeError
deriving DecidableEq

/-- One row of the `slo_data` result dataframe. Columns that a given stage
has not produced yet are `none` (they do not exist in the dataframe).
`group_key` holds the group-by label columns carried along by
`groupby(...).sum().reset_index()` (empty in simple mode). -/
structure Row where
  group_key : List (String × Option String)
  count_good : ℤ
  count_valid : ℕ
  sli : Option ℚ
  period_from : Option ℚ
  period_to : Option ℚ
  slo : Option ℚ
  error_budget : Option ℚ
  error_budget_remaining : Option ℚ
deriving DecidableEq

/-- State of an `Sli` instance: its configuration attributes together with
the metric client's `value_type` and the stored dataframes. -/
structure SliState where
  value_type : ValueType
  metric_data : List Observation
  window_end : ℚ
  window_length : ℤ
  slo : Option ℚ
  slo_data : Option (List Row)
  group_by_resource_labels : List String
  group_by_metric_labels : List String

/-- Embedding of `StackdriverMetricClient.prepend_key`:
`f'{prepend}__{key}'`. -/
def prepend_key (key : String) (prep : String) : String :=
  prep ++ "__" ++ key

/-- Embedding of the `Sli.group_by_labels` property: resource labels each
run through `prepend_key _ 'resource'`, then metric labels each run through
`prepend_key _ 'metric'`, concatenated in that order. -/
def group_by_labels (s : SliState) : List String :=
  s.group_by_resource_labels.map (fun l => prepend_key l "resource")
    ++ s.group_by_metric_labels.map (fun l => prepend_key l "metric")

/-- Embedding of the static method `Sli.days_to_seconds`:
`days*24*60*60`. -/
def days_to_seconds (days : ℤ) : ℤ :=
  days * 24 * 60 * 60

/-- Embedding of the `Sli.window_length_seconds` property. -/
def window_length_seconds (s : SliState) : ℤ :=
  days_to_seconds s.window_length

/-- Embedding of the `Sli.window_start` property:
`window_end - window_length_seconds`. -/
def window_start (s : SliState) : ℚ :=
  s.window_end - (window_length_seconds s : ℚ)

/-- Python float division as performed on the count columns: a true
division, whose 0/0 case yields NaN (modelled `none`) rather than a
number. -/
def pyDiv (good : ℤ) (valid : ℕ) : Option ℚ :=
  if valid = 0 then none else some ((good : ℚ) / (valid : ℚ))

/-- One output row of `Sli.calc_bool_agg` for the group whose key-tuple
(the values of the `group_by_labels` columns) is `k`: `count_good` is the
groupwise sum of `value`, `count_valid` the groupwise row count, `sli`
their quotient. -/
def rowOfGroup (gbl : List String) (data : List Observation) (k : List (Option String)) : Row :=
  let grp := data.filter (fun o => decide (gbl.map o.labels = k))
  { group_key := gbl.zip k
    count_good := (grp.map (fun o => o.value)).sum
    count_valid := grp.length
    sli := pyDiv (grp.map (fun o => o.value)).sum grp.length
    period_from := none
    period_to := none
    slo := none
    error_budget := none
    error_budget_remaining := none }

/-- Embedding of `Sli.calc_bool_agg`: group `metric_data` by the
`group_by_labels` columns (one output row per distinct key-tuple), sum the
`value` column into `count_good`, count rows into `count_valid`, and divide
to obtain `sli`. The result overwrites `slo_data`. As in pandas `groupby`,
any row holding NA (`none`) in a grouped key column is silently excluded
from every group before aggregation. -/
def calc_bool_agg (s : SliState) : SliState :=
  let gbl := group_by_labels s
  let grouped := s.metric_data.filter (fun o => (gbl.map o.labels).all Option.isSome)
  let keys := (grouped.map (fun o => gbl.map o.labels)).dedup
  { s with slo_data := some (keys.map (rowOfGroup gbl grouped)) }

/-- Embedding of `Sli.calc_bool_simple`: a single row whose `count_valid`
is `metric_data.shape[0]`, whose `count_good` is the sum of the `value`
column, and whose `sli` is their quotient. The result overwrites
`slo_data`. -/
def calc_bool_simple (s : SliState) : SliState :=
  { s with slo_data := some [
    { group_key := []
      count_good := (s.metric_data.map (fun o => o.value)).sum
      count_valid := s.metric_data.length
      sli := pyDiv (s.metric_data.map (fun o => o.value)).sum s.metric_data.length
      period_from := none
      period_to := none
      slo := none
      error_budget := none
      error_budget_remaining := none } ] }

/-- Embedding of `Sli.calc_bool`: dispatch on the presence of group-by
labels. -/
def calc_bool (s : SliState) : SliState :=
  if 0 < s.group_by_metric_labels.length ∨ 0 < s.group_by_resource_labels.length then
    calc_bool_agg s
  else
    calc_bool_simple s

/-- Embedding of `Sli.add_period`: attach `period_from = window_end -
window_length_seconds` and `period_to = window_end` to every stored result
row. -/
def add_period (s : SliState) : SliState :=
  { s with slo_data := s.slo_data.map (fun rows => rows.map (fun r =>
      { r with
        period_from := some (s.window_end - (window_length_seconds s : ℚ))
        period_to := some s.window_end })) }

/-- Embedding of `Sli.add_slo`: attach the configured `slo` to every stored
result row. -/
def add_slo (s : SliState) : SliState :=
  { s with slo_data := s.slo_data.map (fun rows => rows.map (fun r =>
      { r with slo := s.slo })) }

/-- Embedding of `Sli.calculate`: on `BOOL` run `calc_bool` then
`add_period` then `add_slo`; on the placeholder `'Some other type'` do
nothing (`pass`); otherwise raise `UnsupportedMetricType`. -/
def calculate (s : SliState) : Except SliError SliState :=
  match s.value_type with
  | ValueType.BOOL => Except.ok (add_slo (add_period (calc_bool s)))
  | ValueType.someOtherType => Except.ok s
  | _ => Except.error SliError.UnsupportedMetricType

/-- Python truthiness of the `slo` attribute, as tested by
`if not self.slo:` in `Sli.error_budget`: `None` and `0.0` are falsy. -/
def pyFalsy : Option ℚ → Bool
  | none => true
  | some q => decide (q = 0)

/-- Embedding of `Sli.error_budget`: raise `ValueNotSet` when `slo` is
falsy, otherwise attach `error_budget = count_valid * (1 - slo)` and
`error_budget_remaining = error_budget - (count_valid - count_good)` to
every stored result row. When `slo_data` is still `None`, Python would
fail with a `TypeError` (modelled `NoneTypeError`). -/
def error_budget (s : SliState) : Except SliError SliState :=
  if pyFalsy s.slo then Except.error SliError.ValueNotSet
  else
    match s.slo_data with
    | none => Except.error SliError.NoneTypeError
    | some rows => Except.ok { s with slo_data := some (rows.map (fun r =>
        { r with
          error_budget := some ((r.count_valid : ℚ) * (1 - s.slo.getD 0))
          error_budget_remaining := some ((r.count_valid : ℚ) * (1 - s.slo.getD 0)
            - ((r.count_valid : ℚ) - (r.count_good : ℚ))) })) }

/-- Rows of the stored `slo_data` dataframe (empty when it is `None`). -/
def rowsOf (s : SliState) : List Row :=
  s.slo_data.getD []

/-- Rows produced by the boolean calculation dispatch (the `slo_data` that
`calc_bool` stores), as a function of the state. -/
def bool_rows (s : SliState) : List Row :=
  if 0 < s.group_by_metric_labels.length ∨ 0 < s.group_by_resource_labels.length then
    (((s.metric_data.filter (fun o =>
        ((group_by_labels s).map o.labels).all Option.isSome)).map
          (fun o => (group_by_labels s).map o.labels)).dedup).map
      (rowOfGroup (group_by_labels s)
        (s.metric_data.filter (fun o =>
          ((group_by_labels s).map o.labels).all Option.isSome)))
  else
    [ { group_key := []
        count_good := (s.metric_data.map (fun o => o.value)).sum
        count_valid := s.metric_data.length
        sli := pyDiv (s.metric_data.map (fun o => o.value)).sum s.metric_data.length
        period_from := none
        period_to := none
        slo := none
        error_budget := none
        error_budget_remaining := none } ]

/-- Rows produced by a full boolean `calculate` run: the `calc_bool` rows
with the period columns and the `slo` column attached. -/
def final_rows (s : SliState) : List Row :=
  (bool_rows s).map (fun r =>
    { r with
      period_from := some (s.window_end - (window_length_seconds s : ℚ))
      period_to := some s.window_end
      slo := s.slo })

theorem calc_bool_shape (s : SliState) :
    calc_bool s = { s with slo_data := some (bool_rows s) } := by
  by_cases h : 0 < s.group_by_metric_labels.length ∨ 0 < s.group_by_resource_labels.length
  · simp [calc_bool, bool_rows, h, calc_bool_agg]
  · simp [calc_bool, bool_rows, h, calc_bool_simple]

theorem calculate_bool_shape (s : SliState) (hv : s.value_type = ValueType.BOOL) :
    calculate s = Except.ok { s with slo_data := some (final_rows s) } := by
  unfold calculate
  rw [hv, calc_bool_shape]
  simp [add_period, add_slo, final_rows, List.map_map]
  exact ⟨hv, fun a _ => rfl⟩


theorem sum_map_filter_split {α M : Type} [AddCommMonoid M] (p : α → Bool) (g : α → M)
    (l : List α) :
    ((l.filter p).map g).sum + ((l.filter (fun a => ! p a)).map g).sum = (l.map g).sum := by
  induction l with
  | nil => simp
  | cons x xs ih =>
    by_cases hp : p x = true
    · have h1 : (x :: xs).filter p = x :: xs.filter p := by simp [List.filter_cons, hp]
      have h2 : (x :: xs).filter (fun a => ! p a) = xs.filter (fun a => ! p a) := by
        simp [List.filter_cons, hp]
      rw [h1, h2, List.map_cons, List.sum_cons, List.map_cons, List.sum_cons, add_assoc, ih]
    · have hp2 : p x = false := by simpa using hp
      have h1 : (x :: xs).filter p = xs.filter p := by simp [List.filter_cons, hp2]
      have h2 : (x :: xs).filter (fun a => ! p a) = x :: xs.filter (fun a => ! p a) := by
        simp [List.filter_cons, hp2]
      rw [h1, h2, List.map_cons, List.sum_cons, List.map_cons, List.sum_cons, add_left_comm, ih]

theorem partition_sum {α κ M : Type} [DecidableEq κ] [AddCommMonoid M]
    (f : α → κ) (g : α → M) :
    ∀ (keys : List κ) (l : List α), keys.Nodup → (∀ a ∈ l, f a ∈ keys) →
      (keys.map (fun k => ((l.filter (fun a => decide (f a = k))).map g).sum)).sum
        = (l.map g).sum := by
  intro keys
  induction keys with
  | nil =>
    intro l _ hmem
    cases l with
    | nil => simp
    | cons a l => exact absurd (hmem a (List.mem_cons_self a l)) (List.not_mem_nil _)
  | cons k ks ih =>
    intro l hnd hmem
    have hk : k ∉ ks := (List.nodup_cons.mp hnd).1
    have hnd2 : ks.Nodup := (List.nodup_cons.mp hnd).2
    have hmem2 : ∀ a ∈ l.filter (fun a => ! decide (f a = k)), f a ∈ ks := by
      intro a ha
      have h1 := List.mem_filter.mp ha
      have h2 : f a ≠ k := by
        have h3 := h1.2
        simp only [Bool.not_eq_true', decide_eq_false_iff_not] at h3
        exact h3
      rcases List.mem_cons.mp (hmem a h1.1) with h | h
      · exact absurd h h2
      · exact h
    have hfilter : ∀ k0 ∈ ks,
        l.filter (fun a => decide (f a = k0))
          = (l.filter (fun a => ! decide (f a = k))).filter (fun a => decide (f a = k0)) := by
      intro k0 hk0
      rw [List.filter_filter]
      apply List.filter_congr
      intro a _
      by_cases hq : f a = k0
      · have hne : ¬ k0 = k := fun he => hk (he ▸ hk0)
        simp [hq, hne]
      · simp [hq]
    have hmap : ks.map (fun k0 => ((l.filter (fun a => decide (f a = k0))).map g).sum)
        = ks.map (fun k0 => (((l.filter (fun a => ! decide (f a = k))).filter
            (fun a => decide (f a = k0))).map g).sum) := by
      apply List.map_congr_left
      intro k0 hk0
      rw [hfilter k0 hk0]
    simp only [List.map_cons, List.sum_cons]
    rw [hmap, ih (l.filter (fun a => ! decide (f a = k))) hnd2 hmem2]
    exact sum_map_filter_split (fun a => decide (f a = k)) g l

theorem length_eq_sum_ones {α : Type} (l : List α) :
    (l.map (fun _ => (1 : ℕ))).sum = l.length := by
  induction l with
  | nil => simp
  | cons x xs ih => simp [ih, Nat.add_comm]

theorem partition_length {α κ : Type} [DecidableEq κ] (f : α → κ) (keys : List κ)
    (l : List α) (hnd : keys.Nodup) (hmem : ∀ a ∈ l, f a ∈ keys) :
    (keys.map (fun k => (l.filter (fun a => decide (f a = k))).length)).sum = l.length := by
  have h := partition_sum f (fun _ => (1 : ℕ)) keys l hnd hmem
  simpa [length_eq_sum_ones] using h

def c2MissingObs : Observation :=
  { start_timestamp := 0, end_timestamp := 1, value := 1, labels := fun _ => none }

def c2MissingState : SliState :=
  { value_type := ValueType.BOOL
    metric_data := [c2MissingObs]
    window_end := 0
    window_length := 0
    slo := none
    slo_data := none
    group_by_resource_labels := ["env"]
    group_by_metric_labels := [] }

/-- C2 counterexample: group by `resource__env` over a collection whose
only observation holds NaN in that label column. Pandas `groupby` excludes
the NA-keyed row from every group, so the grouped table is empty and its
`count_valid` and `count_good` sums are 0, while the simple aggregation
over the same data counts the row (1 and 1): the conservation law fails as
universally stated. -/
theorem calc_bool_agg_conservation_counterexample :
    ((rowsOf (calc_bool_agg c2MissingState)).map (fun r => r.count_valid)).sum = 0
    ∧ ((rowsOf (calc_bool_simple c2MissingState)).map (fun r => r.count_valid)).sum = 1
    ∧ ((rowsOf (calc_bool_agg c2MissingState)).map (fun r => r.count_good)).sum = 0
    ∧ ((rowsOf (calc_bool_simple c2MissingState)).map (fun r => r.count_good)).sum = 1
    ∧ ¬ (((rowsOf (calc_bool_agg c2MissingState)).map (fun r => r.count_valid)).sum
        = ((rowsOf (calc_bool_simple c2MissingState)).map (fun r => r.count_valid)).sum) :=
  ⟨rfl, rfl, rfl, rfl, by decide⟩

/-- C2 (amended): for every observation collection in which every
observation carries a (non-NaN) value for every grouped label column, and
every group-by configuration, the sum of `count_valid` over the rows of
the grouped aggregation equals the `count_valid` of the simple (ungrouped)
aggregation over the same data, and likewise for `count_good`. The
completeness proviso is forced by pandas `groupby` silently excluding
NA-keyed rows. -/
theorem calc_bool_agg_conservation_amended (s : SliState)
    (hc : ∀ o ∈ s.metric_data, ∀ g ∈ group_by_labels s, (o.labels g).isSome = true) :
    ((rowsOf (calc_bool_agg s)).map (fun r => r.count_valid)).sum
        = ((rowsOf (calc_bool_simple s)).map (fun r => r.count_valid)).sum
    ∧ ((rowsOf (calc_bool_agg s)).map (fun r => r.count_good)).sum
        = ((rowsOf (calc_bool_simple s)).map (fun r => r.count_good)).sum := by
  have hfilter : s.metric_data.filter (fun o =>
      ((group_by_labels s).map o.labels).all Option.isSome) = s.metric_data := by
    rw [List.filter_eq_self]
    intro o ho
    rw [List.all_eq_true]
    intro b hb
    rcases List.mem_map.mp hb with ⟨g, hg, rfl⟩
    exact hc o ho g hg
  have hnd : ((s.metric_data.map
      (fun o : Observation => (group_by_labels s).map o.labels)).dedup).Nodup :=
    List.nodup_dedup _
  have hmem : ∀ o ∈ s.metric_data,
      (fun o : Observation => (group_by_labels s).map o.labels) o
        ∈ (s.metric_data.map
            (fun o : Observation => (group_by_labels s).map o.labels)).dedup :=
    fun o ho => List.mem_dedup.mpr (List.mem_map_of_mem _ ho)
  constructor
  · simp only [rowsOf, calc_bool_agg, calc_bool_simple, hfilter, Option.getD, List.map_map,
      Function.comp, rowOfGroup, List.map_cons, List.map_nil, List.sum_cons,
      List.sum_nil, add_zero]
    exact partition_length (fun o : Observation => (group_by_labels s).map o.labels)
      _ _ hnd hmem
  · simp only [rowsOf, calc_bool_agg, calc_bool_simple, hfilter, Option.getD, List.map_map,
      Function.comp, rowOfGroup, List.map_cons, List.map_nil, List.sum_cons,
      List.sum_nil, add_zero]
    exact partition_sum (fun o : Observation => (group_by_labels s).map o.labels)
      (fun o => o.value) _ _ hnd hmem

def c2CompleteObs1 : Observation :=
  { start_timestamp := 0, end_timestamp := 1, value := 1
    labels := fun k => if k = "resource__env" then some "a" else none }

def c2CompleteObs2 : Observation :=
  { start_timestamp := 0, end_timestamp := 1, value := 0
    labels := fun k => if k = "resource__env" then some "b" else none }

def c2CompleteState : SliState :=
  { value_type := ValueType.BOOL
    metric_data := [c2CompleteObs1, c2CompleteObs2, c2CompleteObs1]
    window_end := 0
    window_length := 0
    slo := none
    slo_data := none
    group_by_resource_labels := ["env"]
    group_by_metric_labels := [] }

theorem calc_bool_agg_conservation_amended_witness :
    ((rowsOf (calc_bool_agg c2CompleteState)).map (fun r => r.count_valid)).sum
        = ((rowsOf (calc_bool_simple c2CompleteState)).map (fun r => r.count_valid)).sum
    ∧ ((rowsOf (calc_bool_agg c2CompleteState)).map (fun r => r.count_good)).sum
        = ((rowsOf (calc_bool_simple c2CompleteState)).map (fun r => r.count_good)).sum :=
  calc_bool_agg_conservation_amended c2CompleteState (by decide)

/-- C1: for every non-empty observation collection with both group-by lists
empty, a boolean `calculate` produces exactly one result row whose
`count_valid` is the number of observations, whose `count_good` is the sum
of the `value` column, and whose `sli` is `count_good / count_valid`. -/
theorem calculate_simple_bool (s : SliState)
    (hv : s.value_type = ValueType.BOOL)
    (hr : s.group_by_resource_labels = [])
    (hm : s.group_by_metric_labels = [])
    (hne : s.metric_data ≠ []) :
    ∃ t r, calculate s = Except.ok t ∧ t.slo_data = some [r]
      ∧ r.count_valid = s.metric_data.length
      ∧ r.count_good = (s.metric_data.map (fun o => o.value)).sum
      ∧ r.sli = some ((r.count_good : ℚ) / (r.count_valid : ℚ)) := by
  have hlen : s.metric_data.length ≠ 0 := fun h => hne (List.length_eq_zero.mp h)
  refine ⟨{ s with slo_data := some (final_rows s) },
    { group_key := []
      count_good := (s.metric_data.map (fun o => o.value)).sum
      count_valid := s.metric_data.length
      sli := pyDiv (s.metric_data.map (fun o => o.value)).sum s.metric_data.length
      period_from := some (s.window_end - (window_length_seconds s : ℚ))
      period_to := some s.window_end
      slo := s.slo
      error_budget := none
      error_budget_remaining := none },
    calculate_bool_shape s hv, ?_, rfl, rfl, ?_⟩
  · simp [final_rows, bool_rows, hr, hm]
  · simp [pyDiv, hlen]

def c1Obs1 : Observation :=
  { start_timestamp := 0, end_timestamp := 1, value := 1, labels := fun _ => some "x" }

def c1Obs0 : Observation :=
  { start_timestamp := 2, end_timestamp := 3, value := 0, labels := fun _ => some "y" }

def c1State : SliState :=
  { value_type := ValueType.BOOL
    metric_data := [c1Obs1, c1Obs0, c1Obs1]
    window_end := 1000
    window_length := 1
    slo := some (99/100)
    slo_data := none
    group_by_resource_labels := []
    group_by_metric_labels := [] }

theorem calculate_simple_bool_witness :
    ∃ t r, calculate c1State = Except.ok t ∧ t.slo_data = some [r]
      ∧ r.count_valid = c1State.metric_data.length
      ∧ r.count_good = (c1State.metric_data.map (fun o => o.value)).sum
      ∧ r.sli = some ((r.count_good : ℚ) / (r.count_valid : ℚ)) :=
  calculate_simple_bool c1State rfl rfl rfl (by simp [c1State])

/-- C3: the computed group key is the resource labels each prefixed with
`resource__` followed by the metric labels each prefixed with `metric__`,
in the given order, `prepend_key key origin` being exactly
`origin ++ "__" ++ key` (a pure function); in particular resource labels
`environment_name, project_id` and metric label `image_version` give
exactly the three shown prefixed names. -/
theorem group_by_labels_spec (s : SliState) :
    group_by_labels s
      = s.group_by_resource_labels.map (fun l => "resource" ++ "__" ++ l)
        ++ s.group_by_metric_labels.map (fun l => "metric" ++ "__" ++ l)
    ∧ (∀ key origin : String, prepend_key key origin = origin ++ "__" ++ key)
    ∧ group_by_labels { s with
          group_by_resource_labels := ["environment_name", "project_id"]
          group_by_metric_labels := ["image_version"] }
        = ["resource__environment_name", "resource__project_id", "metric__image_version"] :=
  ⟨rfl, fun _ _ => rfl, rfl⟩

/-- C5: whenever `slo` is unset (`None`), `error_budget` fails with
`ValueNotSet`; the failing call returns only the error, so the stored
result table is left as it was. -/
theorem error_budget_requires_slo (s : SliState) (h : s.slo = none) :
    error_budget s = Except.error SliError.ValueNotSet := by
  simp [error_budget, pyFalsy, h]

def c5State : SliState :=
  { value_type := ValueType.BOOL
    metric_data := []
    window_end := 0
    window_length := 0
    slo := none
    slo_data := some [ { group_key := [], count_good := 1, count_valid := 2
                         sli := some (1/2), period_from := none, period_to := none
                         slo := none, error_budget := none
                         error_budget_remaining := none } ]
    group_by_resource_labels := []
    group_by_metric_labels := [] }

theorem error_budget_requires_slo_witness :
    error_budget c5State = Except.error SliError.ValueNotSet :=
  error_budget_requires_slo c5State rfl

/-- C6: for every metric value type that is neither `BOOL` nor the reserved
placeholder `'Some other type'`, `calculate` raises
`UnsupportedMetricType`; the raise happens before any assignment, so the
stored `slo_data` is left as it was. -/
theorem calculate_unsupported (s : SliState)
    (h1 : s.value_type ≠ ValueType.BOOL)
    (h2 : s.value_type ≠ ValueType.someOtherType) :
    calculate s = Except.error SliError.UnsupportedMetricType := by
  unfold calculate
  cases hv : s.value_type <;> simp_all

def c6State : SliState :=
  { value_type := ValueType.INT64
    metric_data := []
    window_end := 0
    window_length := 0
    slo := none
    slo_data := some []
    group_by_resource_labels := []
    group_by_metric_labels := [] }

theorem calculate_unsupported_witness :
    calculate c6State = Except.error SliError.UnsupportedMetricType :=
  calculate_unsupported c6State (by decide) (by decide)

/-- C7: the empty observation collection passed as already-fetched data to
a boolean `calculate` with no grouping does not raise: it produces a single
row with `count_valid = 0` and an undefined (NaN, modelled `none`) `sli`
ratio. -/
theorem calculate_empty_simple (s : SliState)
    (hv : s.value_type = ValueType.BOOL)
    (hr : s.group_by_resource_labels = [])
    (hm : s.group_by_metric_labels = [])
    (hd : s.metric_data = []) :
    ∃ t r, calculate s = Except.ok t ∧ t.slo_data = some [r]
      ∧ r.count_valid = 0 ∧ r.sli = none := by
  refine ⟨{ s with slo_data := some (final_rows s) },
    { group_key := []
      count_good := 0
      count_valid := 0
      sli := none
      period_from := some (s.window_end - (window_length_seconds s : ℚ))
      period_to := some s.window_end
      slo := s.slo
      error_budget := none
      error_budget_remaining := none },
    calculate_bool_shape s hv, ?_, rfl, rfl⟩
  simp [final_rows, bool_rows, hr, hm, hd, pyDiv]

def c7State : SliState :=
  { value_type := ValueType.BOOL
    metric_data := []
    window_end := 50
    window_length := 1
    slo := some (999/1000)
    slo_data := none
    group_by_resource_labels := []
    group_by_metric_labels := [] }

theorem calculate_empty_simple_witness :
    ∃ t r, calculate c7State = Except.ok t ∧ t.slo_data = some [r]
      ∧ r.count_valid = 0 ∧ r.sli = none :=
  calculate_empty_simple c7State rfl rfl rfl rfl

/-- C9: every successful boolean `calculate` stamps every result row with
the same `period_from = window_end - window_length * 86400` seconds, the
same `period_to = window_end`, and the same `slo` column equal to the
configured objective. -/
theorem calculate_period_slo_columns (s : SliState)
    (hv : s.value_type = ValueType.BOOL) :
    ∃ t rows, calculate s = Except.ok t ∧ t.slo_data = some rows
      ∧ ∀ r ∈ rows,
          r.period_from = some (s.window_end - ((s.window_length * 86400 : ℤ) : ℚ))
          ∧ r.period_to = some s.window_end
          ∧ r.slo = s.slo := by
  refine ⟨_, final_rows s, calculate_bool_shape s hv, rfl, ?_⟩
  intro r hr
  rcases List.mem_map.mp hr with ⟨r0, _, rfl⟩
  refine ⟨?_, rfl, rfl⟩
  have harith : ((window_length_seconds s : ℤ) : ℚ) = ((s.window_length * 86400 : ℤ) : ℚ) := by
    simp only [window_length_seconds, days_to_seconds]
    push_cast
    ring
  simp [harith]

def c9State : SliState :=
  { value_type := ValueType.BOOL
    metric_data := [c1Obs1]
    window_end := 864100
    window_length := 10
    slo := some (99/100)
    slo_data := none
    group_by_resource_labels := []
    group_by_metric_labels := [] }

theorem calculate_period_slo_columns_witness :
    ∃ t rows, calculate c9State = Except.ok t ∧ t.slo_data = some rows
      ∧ ∀ r ∈ rows,
          r.period_from = some (c9State.window_end - ((c9State.window_length * 86400 : ℤ) : ℚ))
          ∧ r.period_to = some c9State.window_end
          ∧ r.slo = c9State.slo :=
  calculate_period_slo_columns c9State rfl

/-- C8: a boolean `calculate` is deterministic and overwriting: it yields
the same result table however `slo_data` was previously populated (so a
second call reproduces the first call's rows and replaces, rather than
extends, the stored table), and running it on its own output is a fixed
point. -/
theorem calculate_idempotent_overwrite (s : SliState)
    (hv : s.value_type = ValueType.BOOL) :
    ∃ t, calculate s = Except.ok t ∧ calculate t = Except.ok t
      ∧ ∀ old, calculate { s with slo_data := old } = Except.ok t := by
  refine ⟨{ s with slo_data := some (final_rows s) }, calculate_bool_shape s hv, ?_, ?_⟩
  · have h := calculate_bool_shape { s with slo_data := some (final_rows s) } hv
    rw [h]
    rfl
  · intro old
    have h := calculate_bool_shape { s with slo_data := old } hv
    rw [h]
    rfl

def c8State : SliState :=
  { value_type := ValueType.BOOL
    metric_data := [c1Obs1, c1Obs0]
    window_end := 100
    window_length := 1
    slo := some (1/2)
    slo_data := some []
    group_by_resource_labels := []
    group_by_metric_labels := [] }

theorem calculate_idempotent_overwrite_witness :
    ∃ t, calculate c8State = Except.ok t ∧ calculate t = Except.ok t
      ∧ ∀ old, calculate { c8State with slo_data := old } = Except.ok t :=
  calculate_idempotent_overwrite c8State rfl

/-- C4 (amended): for every stored result table and every set nonzero slo
value, `error_budget` attaches to every existing row
`error_budget = count_valid * (1 - slo)` and
`error_budget_remaining = error_budget - (count_valid - count_good)`.
The nonzero proviso is forced by the `if not self.slo` truthiness test:
the set value `0.0` is treated as unset. -/
theorem error_budget_attaches (s : SliState) (q : ℚ) (rows : List Row)
    (hs : s.slo = some q) (hq : q ≠ 0) (hd : s.slo_data = some rows) :
    error_budget s = Except.ok { s with slo_data := some (rows.map (fun r =>
      { r with
        error_budget := some ((r.count_valid : ℚ) * (1 - q))
        error_budget_remaining := some ((r.count_valid : ℚ) * (1 - q)
          - ((r.count_valid : ℚ) - (r.count_good : ℚ))) })) } := by
  have hf : pyFalsy (some q) = false := by
    show decide (q = 0) = false
    exact decide_eq_false hq
  simp [error_budget, hs, hf, hd]

def c4Row : Row :=
  { group_key := []
    count_good := 97
    count_valid := 100
    sli := some (97/100)
    period_from := none
    period_to := none
    slo := none
    error_budget := none
    error_budget_remaining := none }

def c4State : SliState :=
  { value_type := ValueType.BOOL
    metric_data := []
    window_end := 0
    window_length := 0
    slo := some (99/100)
    slo_data := some [c4Row]
    group_by_resource_labels := []
    group_by_metric_labels := [] }

def c4RowOut : Row :=
  { c4Row with error_budget := some 1, error_budget_remaining := some (-2) }

theorem error_budget_attaches_witness :
    (error_budget c4State).toOption.map rowsOf = some [c4RowOut]
    ∧ c4RowOut.error_budget = some 1
    ∧ c4RowOut.error_budget_remaining = some (-2) := by
  refine ⟨?_, rfl, rfl⟩
  rw [error_budget_attaches c4State (99/100) [c4Row] rfl (by norm_num) rfl]
  norm_num [Except.toOption, Option.map, rowsOf, c4Row, c4RowOut]

def c4ZeroState : SliState :=
  { value_type := ValueType.BOOL
    metric_data := []
    window_end := 0
    window_length := 0
    slo := some 0
    slo_data := some [c4Row]
    group_by_resource_labels := []
    group_by_metric_labels := [] }

/-- C4 counterexample: the slo value `0.0` is set (non-null) and a result
table is stored, yet `error_budget` raises `ValueNotSet` and attaches
nothing, because `if not self.slo` treats `0.0` as falsy. -/
theorem error_budget_zero_slo_counterexample :
    c4ZeroState.slo = some 0
    ∧ c4ZeroState.slo_data = some [c4Row]
    ∧ error_budget c4ZeroState = Except.error SliError.ValueNotSet
    ∧ ∀ t, error_budget c4ZeroState ≠ Except.ok t := by
  refine ⟨rfl, rfl, rfl, ?_⟩
  intro t h
  rw [show error_budget c4ZeroState = Except.error SliError.ValueNotSet from rfl] at h
  exact Except.noConfusion h

theorem filter_proj_length (gbl : List String) (d : List Observation)
    (k : List (Option String)) :
    (d.filter (fun o => decide (gbl.map o.labels = k))).length
      = ((d.map (fun o => (gbl.map o.labels, o.value))).filter
          (fun p => decide (p.1 = k))).length := by
  conv_rhs => rw [List.filter_map]
  rw [List.length_map]
  rfl

theorem filter_proj_sum (gbl : List String) (d : List Observation)
    (k : List (Option String)) :
    ((d.filter (fun o => decide (gbl.map o.labels = k))).map (fun o => o.value)).sum
      = (((d.map (fun o => (gbl.map o.labels, o.value))).filter
          (fun p => decide (p.1 = k))).map (fun p => p.2)).sum := by
  conv_rhs => rw [List.filter_map, List.map_map]
  rfl

theorem keys_proj (gbl : List String) (d : List Observation) :
    d.map (fun o => gbl.map o.labels)
      = (d.map (fun o => (gbl.map o.labels, o.value))).map (fun p => p.1) := by
  rw [List.map_map]
  rfl

theorem rowOfGroup_proj (gbl : List String) (d1 d2 : List Observation)
    (H : d1.map (fun o => (gbl.map o.labels, o.value))
       = d2.map (fun o => (gbl.map o.labels, o.value))) (k : List (Option String)) :
    rowOfGroup gbl d1 k = rowOfGroup gbl d2 k := by
  have hlen : (d1.filter (fun o => decide (gbl.map o.labels = k))).length
      = (d2.filter (fun o => decide (gbl.map o.labels = k))).length := by
    rw [filter_proj_length, filter_proj_length, H]
  have hsum : ((d1.filter (fun o => decide (gbl.map o.labels = k))).map
        (fun o => o.value)).sum
      = ((d2.filter (fun o => decide (gbl.map o.labels = k))).map
          (fun o => o.value)).sum := by
    rw [filter_proj_sum, filter_proj_sum, H]
  simp only [rowOfGroup, hlen, hsum]

theorem filter_na_proj (gbl : List String) (d1 d2 : List Observation)
    (H : d1.map (fun o => (gbl.map o.labels, o.value))
       = d2.map (fun o => (gbl.map o.labels, o.value))) :
    (d1.filter (fun o => (gbl.map o.labels).all Option.isSome)).map
        (fun o => (gbl.map o.labels, o.value))
      = (d2.filter (fun o => (gbl.map o.labels).all Option.isSome)).map
        (fun o => (gbl.map o.labels, o.value)) := by
  have h1 : ∀ d : List Observation,
      (d.filter (fun o => (gbl.map o.labels).all Option.isSome)).map
          (fun o => (gbl.map o.labels, o.value))
        = (d.map (fun o => (gbl.map o.labels, o.value))).filter
            (fun p => p.1.all Option.isSome) :=
    fun d => (@List.filter_map Observation (List (Option String) × ℤ)
      (fun p => p.1.all Option.isSome) (fun o => (gbl.map o.labels, o.value)) d).symm
  rw [h1, h1, H]

theorem bool_rows_proj (s : SliState) (d2 : List Observation)
    (H : s.metric_data.map (fun o => ((group_by_labels s).map o.labels, o.value))
       = d2.map (fun o => ((group_by_labels s).map o.labels, o.value))) :
    bool_rows { s with metric_data := d2 } = bool_rows s := by
  have hlen : d2.length = s.metric_data.length := by
    have h1 := congrArg List.length H
    rw [List.length_map, List.length_map] at h1
    exact h1.symm
  have hsum : (d2.map (fun o => o.value)).sum
      = (s.metric_data.map (fun o => o.value)).sum := by
    have h1 := congrArg
      (fun l => (List.map (fun p : List (Option String) × ℤ => p.2) l).sum) H
    simp only [List.map_map] at h1
    exact h1.symm
  have Hg := filter_na_proj (group_by_labels s) d2 s.metric_data H.symm
  have hkeys : ((d2.filter (fun o =>
        ((group_by_labels s).map o.labels).all Option.isSome)).map
          (fun o => (group_by_labels s).map o.labels)).dedup
      = ((s.metric_data.filter (fun o =>
          ((group_by_labels s).map o.labels).all Option.isSome)).map
            (fun o => (group_by_labels s).map o.labels)).dedup := by
    rw [keys_proj, keys_proj, Hg]
  unfold bool_rows
  by_cases hc : 0 < s.group_by_metric_labels.length ∨ 0 < s.group_by_resource_labels.length
  · rw [if_pos hc, if_pos hc]
    show (((d2.filter (fun o =>
        ((group_by_labels s).map o.labels).all Option.isSome)).map
          (fun o => (group_by_labels s).map o.labels)).dedup).map
      (rowOfGroup (group_by_labels s)
        (d2.filter (fun o =>
          ((group_by_labels s).map o.labels).all Option.isSome))) = _
    rw [hkeys]
    apply List.map_congr_left
    intro k _
    exact rowOfGroup_proj (group_by_labels s)
      (d2.filter (fun o => ((group_by_labels s).map o.labels).all Option.isSome))
      (s.metric_data.filter (fun o =>
        ((group_by_labels s).map o.labels).all Option.isSome)) Hg k
  · rw [if_neg hc, if_neg hc]
    show ([ ({ group_key := []
               count_good := (d2.map (fun o => o.value)).sum
               count_valid := d2.length
               sli := pyDiv (d2.map (fun o => o.value)).sum d2.length
               period_from := none, period_to := none, slo := none
               error_budget := none, error_budget_remaining := none } : Row) ] : List Row) = _
    rw [hlen, hsum]

/-- C10: a boolean `calculate` never reads the observations' start or end
timestamps and never filters observations by the window: replacing
`metric_data` by any collection that agrees row-by-row on the `value`
field and on every grouped label column (while differing arbitrarily in
the timestamp fields, even lying entirely outside the window) yields an
identical result table. -/
theorem calculate_ignores_timestamps (s : SliState) (d2 : List Observation)
    (hv : s.value_type = ValueType.BOOL)
    (H : s.metric_data.map (fun o => ((group_by_labels s).map o.labels, o.value))
       = d2.map (fun o => ((group_by_labels s).map o.labels, o.value))) :
    ∃ t1 t2, calculate s = Except.ok t1
      ∧ calculate { s with metric_data := d2 } = Except.ok t2
      ∧ t1.slo_data = t2.slo_data := by
  refine ⟨{ s with slo_data := some (final_rows s) },
    { s with metric_data := d2, slo_data := some (final_rows { s with metric_data := d2 }) },
    calculate_bool_shape s hv, calculate_bool_shape { s with metric_data := d2 } hv, ?_⟩
  show some (final_rows s) = some (final_rows { s with metric_data := d2 })
  have hb := bool_rows_proj s d2 H
  unfold final_rows
  rw [hb]
  rfl

def c10Obs1 : Observation :=
  { start_timestamp := 0, end_timestamp := 10, value := 1
    labels := fun k => if k = "resource__env" then some "a" else none }

def c10Obs2 : Observation :=
  { start_timestamp := 0, end_timestamp := 10, value := 0
    labels := fun k => if k = "resource__env" then some "b" else none }

def c10Obs1Late : Observation :=
  { start_timestamp := 777777, end_timestamp := 999999, value := 1
    labels := fun k => if k = "resource__env" then some "a" else none }

def c10Obs2Late : Observation :=
  { start_timestamp := 888888, end_timestamp := 999999, value := 0
    labels := fun k => if k = "resource__env" then some "b" else none }

def c10State : SliState :=
  { value_type := ValueType.BOOL
    metric_data := [c10Obs1, c10Obs2]
    window_end := 100
    window_length := 1
    slo := some (1/2)
    slo_data := none
    group_by_resource_labels := ["env"]
    group_by_metric_labels := [] }

theorem calculate_ignores_timestamps_witness :
    ∃ t1 t2, calculate c10State = Except.ok t1
      ∧ calculate { c10State with metric_data := [c10Obs1Late, c10Obs2Late] } = Except.ok t2
      ∧ t1.slo_data = t2.slo_data :=
  calculate_ignores_timestamps c10State [c10Obs1Late, c10Obs2Late] rfl (by decide)
